import Mathlib

/-!
Shallow embedding of the lazerwfm workflow engine core
(src/lazerwfm/types.py, src/lazerwfm/workflow.py, src/storage/memory_storage.py,
src/storage/memory_taskqueue.py, src/lazerwfm/workflow_engine.py,
src/lazerwfm/workflow_registry.py) and proofs about the claims of the
natural-language specification.

Modelling conventions:
* Python `float` values (timeouts, durations, wall-clock instants) are modelled
  as rationals `ℚ`.
* Python values flowing through params / results are modelled by `PyValue`.
* Python exceptions are modelled by `PyError`.
* Python dicts keyed by strings are modelled by association lists with
  insertion-order-preserving update (`dictSet`), matching CPython dict
  semantics (update keeps the key's position, a new key is appended).
* A step method of a workflow subclass is modelled by a `StepBehavior`:
  the wall-clock duration of the step body and what it returns or raises.
-/

namespace LazerWFM

/-- Model of Python runtime values used in workflow params and results. -/
inductive PyValue where
  | none
  | bool (b : Bool)
  | int (n : Int)
  | str (s : String)
  deriving DecidableEq, Repr

/-- Python truthiness, used by `if`-tests such as
`param_info.get("required", False)` in `start_workflow_by_name`. -/
def PyValue.truthy : PyValue → Bool
  | .none => false
  | .bool b => b
  | .int n => n != 0
  | .str s => s ≠ ""

/-- Model of the Python exception values the core can raise or record:
`ValueError`, `WorkflowError`, `StepTimeoutError` (src/lazerwfm/types.py),
`AttributeError` (object name, attribute name), and arbitrary exceptions
raised inside user step bodies. -/
inductive PyError where
  | valueError (msg : String)
  | workflowError (msg : String)
  | stepTimeoutError (msg : String)
  | attributeError (obj : String) (attr : String)
  | userError (msg : String)
  deriving DecidableEq, Repr

/-- `WorkflowStatus` from src/lazerwfm/types.py. -/
inductive WorkflowStatus where
  | pending
  | running
  | completed
  | failed
  | waiting
  | timeout
  deriving DecidableEq, Repr

/-- `TransitionType` from src/lazerwfm/types.py.  The source enum defines
exactly the four members BASE, NEXT, WAIT, SCHEDULE; it has no END member,
even though src/lazerwfm/workflow_engine.py pattern-matches on
`TransitionType.END`. -/
inductive TransitionType where
  | base
  | next
  | wait
  | schedule
  deriving DecidableEq, Repr

/-- Timeout constant `DEFAULT_STEP_TIMEOUT = 120` from src/lazerwfm/types.py. -/
def DEFAULT_STEP_TIMEOUT : ℚ := 120

/-- Timeout constant `MAX_STEP_TIMEOUT = 600` from src/lazerwfm/types.py. -/
def MAX_STEP_TIMEOUT : ℚ := 600

/-! ### Python dict model (string-keyed association lists) -/

/-- `d[k] = v` on a Python dict: replace the binding in place if the key
exists (keeping its position), otherwise append the new binding. -/
def dictSet {α : Type} : List (String × α) → String → α → List (String × α)
  | [], k, v => [(k, v)]
  | p :: d, k, v => if p.1 = k then (k, v) :: d else p :: dictSet d k v

/-- `del d[k]` on a Python dict. -/
def dictDel {α : Type} (d : List (String × α)) (k : String) :
    List (String × α) :=
  d.filter (fun p => p.1 ≠ k)

/-- `d.get(k)` on a Python dict. -/
def dictGet {α : Type} (d : List (String × α)) (k : String) : Option α :=
  (d.find? (fun p => p.1 = k)).map (fun p => p.2)

/-- The key set of a Python dict, as the list of keys. -/
def dictKeys {α : Type} (d : List (String × α)) : List String :=
  d.map (fun p => p.1)

/-! ### Step transitions (src/lazerwfm/types.py)

A transition instance is a Python object; which attributes it carries depends
on which class constructed it.  We model the attribute set with `Option`
fields: `none` models an absent attribute.  `transition_type` is the
class-level tag. -/

/-- A constructed step-transition object.  The base class `StepTransition`
carries only `transition_type` and `timeout`; `NextStep` adds `next_step`
(modelled by the step's name, per the spec's serialize-by-name design note)
and `params`; `WaitAndNextStep` adds `wait_seconds`; `Schedule` adds
`schedule_time`. -/
structure StepTransition where
  transition_type : TransitionType
  timeout : ℚ
  next_step : Option String
  params : List (String × PyValue)
  wait_seconds : Option ℚ
  schedule_time : Option ℚ
  deriving DecidableEq, Repr

/-- The body of `StepTransition.__init__`: reject `timeout > MAX_STEP_TIMEOUT`
with a `ValueError`, and compute `self.timeout = timeout or
DEFAULT_STEP_TIMEOUT` (note Python's `or`: an explicit timeout of `0` is
falsy and also yields the default). -/
def StepTransition.initTimeout (timeout : Option ℚ) : Except PyError ℚ :=
  match timeout with
  | Option.none =>
      Except.ok DEFAULT_STEP_TIMEOUT
  | Option.some t =>
      if t > MAX_STEP_TIMEOUT then
        Except.error (PyError.valueError
          "Step timeout cannot exceed 600 seconds")
      else if t = 0 then
        Except.ok DEFAULT_STEP_TIMEOUT
      else
        Except.ok t

/-- `StepTransition(timeout)`: constructing a bare base transition. -/
def StepTransition.make (timeout : Option ℚ) : Except PyError StepTransition :=
  (StepTransition.initTimeout timeout).map (fun t =>
    { transition_type := TransitionType.base
      timeout := t
      next_step := Option.none
      params := []
      wait_seconds := Option.none
      schedule_time := Option.none })

/-- `NextStep(next_step, timeout, **params)`. -/
def NextStep.make (next_step : String) (timeout : Option ℚ)
    (params : List (String × PyValue)) : Except PyError StepTransition :=
  (StepTransition.initTimeout timeout).map (fun t =>
    { transition_type := TransitionType.next
      timeout := t
      next_step := Option.some next_step
      params := params
      wait_seconds := Option.none
      schedule_time := Option.none })

/-- `WaitAndNextStep(wait_seconds, next_step, timeout, **params)`. -/
def WaitAndNextStep.make (wait_seconds : ℚ) (next_step : String)
    (timeout : Option ℚ) (params : List (String × PyValue)) :
    Except PyError StepTransition :=
  (StepTransition.initTimeout timeout).map (fun t =>
    { transition_type := TransitionType.wait
      timeout := t
      next_step := Option.some next_step
      params := params
      wait_seconds := Option.some wait_seconds
      schedule_time := Option.none })

/-- `Schedule(schedule_time, next_step, timeout, **params)`. -/
def Schedule.make (schedule_time : ℚ) (next_step : String)
    (timeout : Option ℚ) (params : List (String × PyValue)) :
    Except PyError StepTransition :=
  (StepTransition.initTimeout timeout).map (fun t =>
    { transition_type := TransitionType.schedule
      timeout := t
      next_step := Option.some next_step
      params := params
      wait_seconds := Option.none
      schedule_time := Option.some schedule_time })

/-! ### Step behaviours

A step method of a workflow subclass is arbitrary user code; the engine
observes only how long its body runs and what it returns or raises.  We model
that observation.  The definitions are parametric in the type `τ` of
transition objects, so that the engine over the source's transition classes
and the spec-modelled engine with an explicit `End` variant can share the
workflow, queue and storage model. -/

/-- What a step body does when awaited: return a transition object, return a
non-transition value, or raise an exception. -/
inductive StepResult (τ : Type) where
  | transition (t : τ)
  | value (v : PyValue)
  | raises (e : PyError)
  deriving DecidableEq, Repr

/-- One step method: the wall-clock duration of its body and its outcome.
`asyncio.wait_for(step_method(**params), timeout=DEFAULT_STEP_TIMEOUT)`
raises `asyncio.TimeoutError` exactly when `duration > DEFAULT_STEP_TIMEOUT`. -/
structure StepBehavior (τ : Type) where
  duration : ℚ
  result : StepResult τ
  deriving DecidableEq, Repr

/-! ### Workflow instances (src/lazerwfm/workflow.py) -/

/-- A `Workflow` object.  `steps` models the step methods of the concrete
subclass, resolved by name via `getattr` (dynamic dispatch by step name). -/
structure Workflow (τ : Type) where
  id : String
  name : String
  status : WorkflowStatus
  result : PyValue
  error : Option PyError
  created_at : ℚ
  current_step_name : Option String
  steps : List (String × StepBehavior τ)
  deriving DecidableEq, Repr

/-- `Workflow.set_result`. -/
def Workflow.set_result {τ : Type} (w : Workflow τ) (r : PyValue) :
    Workflow τ :=
  { w with result := r }

/-- `Workflow.set_error`: records the error and also flips the status to
`FAILED` (src/lazerwfm/workflow.py lines 35-37). -/
def Workflow.set_error {τ : Type} (w : Workflow τ) (e : PyError) :
    Workflow τ :=
  { w with error := Option.some e, status := WorkflowStatus.failed }

/-- `Workflow.set_current_step`. -/
def Workflow.set_current_step {τ : Type} (w : Workflow τ)
    (step_name : String) : Workflow τ :=
  { w with current_step_name := Option.some step_name }

/-- `Workflow.get_result`. -/
def Workflow.get_result {τ : Type} (w : Workflow τ) : PyValue :=
  w.result

/-! ### Task queue (src/storage/memory_taskqueue.py) -/

/-- A task: `(workflow_id, step_name, params)`. -/
structure Task where
  workflow_id : String
  step_name : String
  params : List (String × PyValue)
  deriving DecidableEq, Repr

/-- `MemoryTaskQueue`: a deque of tasks. -/
structure MemoryTaskQueue where
  queue : List Task
  deriving DecidableEq, Repr

/-- `MemoryTaskQueue.push`: append to the right of the deque. -/
def MemoryTaskQueue.push (q : MemoryTaskQueue) (t : Task) : MemoryTaskQueue :=
  { queue := q.queue ++ [t] }

/-- `MemoryTaskQueue.pop`: `popleft`, returning the popped task (or `none` on
an empty queue) together with the remaining queue. -/
def MemoryTaskQueue.pop (q : MemoryTaskQueue) :
    Option Task × MemoryTaskQueue :=
  match q.queue with
  | [] => (Option.none, q)
  | t :: rest => (Option.some t, { queue := rest })

/-- `MemoryTaskQueue.is_empty`. -/
def MemoryTaskQueue.is_empty (q : MemoryTaskQueue) : Bool :=
  q.queue.isEmpty

/-! ### Two-tier workflow storage (src/storage/memory_storage.py) -/

/-- `MemoryWorkflowStorage`: warm and cold dicts keyed by workflow id. -/
structure MemoryWorkflowStorage (τ : Type) where
  warm : List (String × Workflow τ)
  cold : List (String × Workflow τ)
  deriving DecidableEq, Repr

/-- `self._terminal_states` as initialised in
`MemoryWorkflowStorage.__init__` (src/storage/memory_storage.py lines
15-18): the set literal contains only `COMPLETED` and `FAILED` — `TIMEOUT`
is not a member. -/
def terminal_states : List WorkflowStatus :=
  [WorkflowStatus.completed, WorkflowStatus.failed]

/-- `MemoryWorkflowStorage.add_workflow`: insert into warm. -/
def MemoryWorkflowStorage.add_workflow {τ : Type}
    (st : MemoryWorkflowStorage τ) (wf : Workflow τ) :
    MemoryWorkflowStorage τ :=
  { st with warm := dictSet st.warm wf.id wf }

/-- `MemoryWorkflowStorage.get_workflow`: warm first, then cold. -/
def MemoryWorkflowStorage.get_workflow {τ : Type}
    (st : MemoryWorkflowStorage τ) (workflow_id : String) :
    Option (Workflow τ) :=
  (dictGet st.warm workflow_id).orElse (fun _ => dictGet st.cold workflow_id)

/-- `MemoryWorkflowStorage.move_to_cold_storage`: move warm → cold, but only
when the warm entry's status is in `self._terminal_states`; otherwise leave
the storage unchanged. -/
def MemoryWorkflowStorage.move_to_cold_storage {τ : Type}
    (st : MemoryWorkflowStorage τ) (workflow_id : String) :
    MemoryWorkflowStorage τ :=
  match dictGet st.warm workflow_id with
  | Option.none => st
  | Option.some wf =>
      if wf.status ∈ terminal_states then
        { warm := dictDel st.warm workflow_id
          cold := dictSet st.cold workflow_id wf }
      else
        st

/-- `MemoryWorkflowStorage.cleanup_cold_storage`: the in-memory
implementation does not track timestamps and is a no-op. -/
def MemoryWorkflowStorage.cleanup_cold_storage {τ : Type}
    (st : MemoryWorkflowStorage τ) (_before : ℚ) :
    MemoryWorkflowStorage τ :=
  st

/-- `MemoryWorkflowStorage.get_active_workflows`: the warm key set. -/
def MemoryWorkflowStorage.get_active_workflows {τ : Type}
    (st : MemoryWorkflowStorage τ) : List String :=
  dictKeys st.warm

/-- Write a (mutated) workflow object back to the tier that holds it.  In
Python the engine mutates the shared object in place; in the functional model
every mutation of a looked-up workflow is written back to the dict entry the
lookup came from. -/
def MemoryWorkflowStorage.updateWorkflow {τ : Type}
    (st : MemoryWorkflowStorage τ) (workflow_id : String) (wf : Workflow τ) :
    MemoryWorkflowStorage τ :=
  if (dictGet st.warm workflow_id).isSome then
    { st with warm := dictSet st.warm workflow_id wf }
  else if (dictGet st.cold workflow_id).isSome then
    { st with cold := dictSet st.cold workflow_id wf }
  else
    st

/-! ### The engine (src/lazerwfm/workflow_engine.py) -/

/-- The engine state the claims observe: the storage and the task queue.
(The `_running` flag and the asyncio task handle only govern loop start-up
and are not modelled.) -/
structure EngineState (τ : Type) where
  storage : MemoryWorkflowStorage τ
  task_queue : MemoryTaskQueue
  deriving DecidableEq, Repr

/-- `type(result)` rendered as Python renders it, for the
"Invalid step transition: ..." error message. -/
def pyTypeName : PyValue → String
  | PyValue.none => "<class 'NoneType'>"
  | PyValue.bool _ => "<class 'bool'>"
  | PyValue.int _ => "<class 'int'>"
  | PyValue.str _ => "<class 'str'>"

/-- The tail of the engine loop body (src/lazerwfm/workflow_engine.py lines
160-166): write the mutated workflow object back, then move it to cold
storage when its status is one of `COMPLETED`, `FAILED`, `TIMEOUT`.  Note
this status tuple names `TIMEOUT` even though the storage's own
`_terminal_states` set does not. -/
def engineTerminalCheck {τ : Type} (storage : MemoryWorkflowStorage τ)
    (workflow_id : String) (wf : Workflow τ) : MemoryWorkflowStorage τ :=
  let storage := storage.updateWorkflow workflow_id wf
  if wf.status ∈ [WorkflowStatus.completed, WorkflowStatus.failed,
      WorkflowStatus.timeout] then
    storage.move_to_cold_storage workflow_id
  else
    storage

/-- One iteration of the dispatch loop `_run_engine`
(src/lazerwfm/workflow_engine.py lines 81-166), faithful to the source:

* pop a task; on an empty queue the loop just sleeps;
* resolve the workflow; if absent, drop the task;
* there is no terminal-status check on the resolved workflow — the source
  proceeds straight into the `try` block;
* `getattr` failure, a step-body timeout (`duration > DEFAULT_STEP_TIMEOUT`)
  and a step-body exception take the two `except` branches;
* a non-transition return value takes the "Invalid step transition" branch,
  whose `continue` (line 108) skips the cold-storage check;
* a transition return value reaches `match result.transition_type:`.
  CPython evaluates the first value pattern `case TransitionType.END:` by
  attribute lookup on the enum; src/lazerwfm/types.py defines no `END`
  member, so the lookup raises `AttributeError`, which the generic
  `except Exception` branch (lines 155-158) catches.  No case body and no
  successor push is ever reached. -/
def runEngineStep (st : EngineState StepTransition) :
    EngineState StepTransition :=
  match st.task_queue.pop with
  | (Option.none, q) => { st with task_queue := q }
  | (Option.some task, q) =>
    let st : EngineState StepTransition := { st with task_queue := q }
    match st.storage.get_workflow task.workflow_id with
    | Option.none => st
    | Option.some wf =>
      match dictGet wf.steps task.step_name with
      | Option.none =>
          let wf := wf.set_error (PyError.attributeError wf.name
            task.step_name)
          let wf := { wf with status := WorkflowStatus.failed }
          { st with
            storage := engineTerminalCheck st.storage task.workflow_id wf }
      | Option.some beh =>
          let wf := wf.set_current_step task.step_name
          if beh.duration > DEFAULT_STEP_TIMEOUT then
            let wf := wf.set_error (PyError.stepTimeoutError
              ("Step " ++ task.step_name ++ " timed out"))
            let wf := { wf with status := WorkflowStatus.timeout }
            { st with
              storage := engineTerminalCheck st.storage task.workflow_id wf }
          else
            match beh.result with
            | StepResult.raises e =>
                let wf := wf.set_error e
                let wf := { wf with status := WorkflowStatus.failed }
                { st with
                  storage :=
                    engineTerminalCheck st.storage task.workflow_id wf }
            | StepResult.value v =>
                let wf := wf.set_error (PyError.workflowError
                  ("Invalid step transition: " ++ pyTypeName v))
                let wf := { wf with status := WorkflowStatus.failed }
                { st with
                  storage := st.storage.updateWorkflow task.workflow_id wf }
            | StepResult.transition _t =>
                let wf := wf.set_error (PyError.attributeError
                  "TransitionType" "END")
                let wf := { wf with status := WorkflowStatus.failed }
                { st with
                  storage :=
                    engineTerminalCheck st.storage task.workflow_id wf }

/-- `WorkflowEngine.stop_workflow` (src/lazerwfm/workflow_engine.py lines
172-178): if the workflow exists and its status is `RUNNING`, set the status
to `FAILED`, attach the "Workflow cancelled" error (which itself sets
`FAILED` again), and ask the storage to move it to cold. -/
def stop_workflow {τ : Type} (st : EngineState τ) (workflow_id : String) :
    EngineState τ :=
  match st.storage.get_workflow workflow_id with
  | Option.none => st
  | Option.some wf =>
      if wf.status = WorkflowStatus.running then
        let wf := { wf with status := WorkflowStatus.failed }
        let wf := wf.set_error (PyError.workflowError "Workflow cancelled")
        let storage := st.storage.updateWorkflow workflow_id wf
        { st with storage := storage.move_to_cold_storage workflow_id }
      else
        st

/-- The workflow object `stop_workflow` writes for a running workflow:
status Failed with the cancellation error attached. -/
def cancelledWorkflow {τ : Type} (wf : Workflow τ) : Workflow τ :=
  { wf with
    status := WorkflowStatus.failed
    error := Option.some (PyError.workflowError "Workflow cancelled") }

/-! ### Registry and the start path (src/lazerwfm/workflow_registry.py,
src/lazerwfm/workflow_engine.py lines 47-75) -/

/-- `WorkflowMetadata` (src/lazerwfm/workflow_registry.py).  A parameter
descriptor is itself a dict, e.g. `required` mapped to a boolean. -/
structure WorkflowMetadata where
  name : String
  class_path : String
  description : String
  parameters : List (String × List (String × PyValue))
  is_public : Bool
  deriving DecidableEq, Repr

/-- The registry's `_workflows` dict.  An entry holds
`(workflow_class, metadata)`; the class is modelled by the fresh instance
that calling it produces (each call yields a new uuid4 id), which the start
path receives as an explicit argument. -/
structure WorkflowRegistry where
  workflows : List (String × WorkflowMetadata)
  deriving DecidableEq, Repr

/-- `WorkflowRegistry.get_workflow_class`. -/
def WorkflowRegistry.get_workflow_class (r : WorkflowRegistry)
    (name : String) : Option WorkflowMetadata :=
  dictGet r.workflows name

/-- `WorkflowEngine.start_workflow` (lines 47-60): `workflow_class()` yields
the fresh instance `workflow`; add it to storage, set its status to
`RUNNING` (the stored reference sees the mutation), push
`(workflow.id, "start", params)`, return the id.  (Starting the asyncio
loop task is not modelled.) -/
def start_workflow {τ : Type} (st : EngineState τ) (workflow : Workflow τ)
    (params : List (String × PyValue)) : String × EngineState τ :=
  let storage := st.storage.add_workflow workflow
  let storage := storage.updateWorkflow workflow.id
    { workflow with status := WorkflowStatus.running }
  let q := st.task_queue.push
    { workflow_id := workflow.id, step_name := "start", params := params }
  (workflow.id, { storage := storage, task_queue := q })

/-- `param_info.get("required", False)` under Python truthiness. -/
def paramRequired (info : List (String × PyValue)) : Bool :=
  match dictGet info "required" with
  | Option.some v => v.truthy
  | Option.none => false

/-- The parameter-validation loop of `start_workflow_by_name` (lines 70-73):
the first parameter in metadata order whose descriptor has a truthy
`required` entry and which is absent from `params`. -/
def firstMissingRequired (metadata : WorkflowMetadata)
    (params : List (String × PyValue)) : Option String :=
  (metadata.parameters.find? (fun p =>
    paramRequired p.2 && (dictGet params p.1).isNone)).map (fun p => p.1)

/-- `WorkflowEngine.start_workflow_by_name` (lines 62-75).  `fresh` is the
instance that instantiating the registered class produces. -/
def start_workflow_by_name {τ : Type} (st : EngineState τ)
    (registry : WorkflowRegistry) (workflow_name : String)
    (params : List (String × PyValue)) (fresh : Workflow τ) :
    Except PyError (String × EngineState τ) :=
  match registry.get_workflow_class workflow_name with
  | Option.none =>
      Except.error (PyError.valueError
        ("Workflow '" ++ workflow_name ++ "' not found"))
  | Option.some metadata =>
      match firstMissingRequired metadata params with
      | Option.some pname =>
          Except.error (PyError.valueError
            ("Required parameter '" ++ pname ++ "' missing"))
      | Option.none =>
          Except.ok (start_workflow st fresh params)

namespace Spec

/-- Modelled from the spec: src/lazerwfm/types.py defines no `END` member in
`TransitionType` and no `End` transition class, although the engine's
`match result.transition_type:` names `TransitionType.END` and the spec
(§3, §4.6) describes an `End{result}` variant.  This enum is the source's
`TransitionType` extended with the spec's `END` member. -/
inductive TransitionTypeS where
  | base
  | next
  | wait
  | schedule
  | endW
  deriving DecidableEq, Repr

/-- Modelled from the spec: transition objects as in `StepTransition` and its
subclasses, extended with the spec's `End` variant.  `result` is the success
value the spec's `End{result}` carries (the engine's END branch reads
`result.result`); constructors other than `End` leave it at Python `None`. -/
structure StepTransitionS where
  transition_type : TransitionTypeS
  timeout : ℚ
  next_step : Option String
  params : List (String × PyValue)
  wait_seconds : Option ℚ
  schedule_time : Option ℚ
  result : PyValue
  deriving DecidableEq, Repr

/-- Modelled from the spec: the `End(result, timeout)` constructor, absent
from src/lazerwfm/types.py; it validates `timeout` exactly as the source's
`StepTransition.__init__` does. -/
def End.make (result : PyValue) (timeout : Option ℚ) :
    Except PyError StepTransitionS :=
  (StepTransition.initTimeout timeout).map (fun t =>
    { transition_type := TransitionTypeS.endW
      timeout := t
      next_step := Option.none
      params := []
      wait_seconds := Option.none
      schedule_time := Option.none
      result := result })

/-- Write the mutated workflow back and run the engine's cold-storage check
(lines 160-166), over spec-modelled transitions. -/
def finishS (st : EngineState StepTransitionS) (workflow_id : String)
    (wf : Workflow StepTransitionS) : EngineState StepTransitionS :=
  { st with storage := engineTerminalCheck st.storage workflow_id wf }

/-- The successor push after the `match` (lines 144-147): read
`result.next_step` — an `AttributeError` if the transition object lacks that
attribute, caught by the generic `except` — and enqueue
`(workflow_id, next_step.__name__, result.params)`; then fall to the
cold-storage check. -/
def pushSuccessorS (st : EngineState StepTransitionS) (task : Task)
    (wf : Workflow StepTransitionS) (t : StepTransitionS) :
    EngineState StepTransitionS :=
  match t.next_step with
  | Option.none =>
      let wf := wf.set_error (PyError.attributeError "StepTransition"
        "next_step")
      let wf := { wf with status := WorkflowStatus.failed }
      finishS st task.workflow_id wf
  | Option.some ns =>
      let q := st.task_queue.push
        { workflow_id := task.workflow_id, step_name := ns,
          params := t.params }
      let st : EngineState StepTransitionS := { st with task_queue := q }
      finishS st task.workflow_id wf

/-- Modelled from the spec: one iteration of the dispatch loop of
src/lazerwfm/workflow_engine.py lines 81-166, with `TransitionType.END`
taken to exist as the spec describes; every other branch follows the source
line by line.  `now` is the wall clock read by the SCHEDULE branch.

Branch notes, matching the source:
* END (lines 111-114): set status `COMPLETED`, `set_result(result.result)`,
  then `continue` — which skips both the successor push and the cold-storage
  check at lines 160-166;
* WAIT (lines 116-125): sleeping `wait_seconds` under `result.timeout`
  raises `StepTimeoutError` when `wait_seconds > timeout`; that exception is
  not an `asyncio.TimeoutError`, so the generic `except Exception` catches
  it and the workflow ends `FAILED`;
* SCHEDULE (lines 127-139): as WAIT with `wait_seconds = schedule_time − now`
  and no sleep at all when the instant is past;
* NEXT (lines 141-142): fall through to the successor push;
* a BASE-tagged transition matches no case, so control falls through to the
  successor push, which reads the missing `next_step` attribute. -/
def runEngineStepS (now : ℚ) (st : EngineState StepTransitionS) :
    EngineState StepTransitionS :=
  match st.task_queue.pop with
  | (Option.none, q) => { st with task_queue := q }
  | (Option.some task, q) =>
    let st : EngineState StepTransitionS := { st with task_queue := q }
    match st.storage.get_workflow task.workflow_id with
    | Option.none => st
    | Option.some wf =>
      match dictGet wf.steps task.step_name with
      | Option.none =>
          let wf := wf.set_error (PyError.attributeError wf.name
            task.step_name)
          let wf := { wf with status := WorkflowStatus.failed }
          finishS st task.workflow_id wf
      | Option.some beh =>
          let wf := wf.set_current_step task.step_name
          if beh.duration > DEFAULT_STEP_TIMEOUT then
            let wf := wf.set_error (PyError.stepTimeoutError
              ("Step " ++ task.step_name ++ " timed out"))
            let wf := { wf with status := WorkflowStatus.timeout }
            finishS st task.workflow_id wf
          else
            match beh.result with
            | StepResult.raises e =>
                let wf := wf.set_error e
                let wf := { wf with status := WorkflowStatus.failed }
                finishS st task.workflow_id wf
            | StepResult.value v =>
                let wf := wf.set_error (PyError.workflowError
                  ("Invalid step transition: " ++ pyTypeName v))
                let wf := { wf with status := WorkflowStatus.failed }
                { st with
                  storage := st.storage.updateWorkflow task.workflow_id wf }
            | StepResult.transition t =>
                match t.transition_type with
                | TransitionTypeS.endW =>
                    let wf := { wf with status := WorkflowStatus.completed }
                    let wf := wf.set_result t.result
                    { st with
                      storage :=
                        st.storage.updateWorkflow task.workflow_id wf }
                | TransitionTypeS.wait =>
                    match t.wait_seconds with
                    | Option.none =>
                        let wf := wf.set_error (PyError.attributeError
                          "StepTransition" "wait_seconds")
                        let wf := { wf with status := WorkflowStatus.failed }
                        finishS st task.workflow_id wf
                    | Option.some w =>
                        if w > t.timeout then
                          let wf := wf.set_error (PyError.stepTimeoutError
                            ("Wait timeout after " ++ toString t.timeout
                              ++ " seconds"))
                          let wf :=
                            { wf with status := WorkflowStatus.failed }
                          finishS st task.workflow_id wf
                        else
                          pushSuccessorS st task wf t
                | TransitionTypeS.schedule =>
                    match t.schedule_time with
                    | Option.none =>
                        let wf := wf.set_error (PyError.attributeError
                          "StepTransition" "schedule_time")
                        let wf := { wf with status := WorkflowStatus.failed }
                        finishS st task.workflow_id wf
                    | Option.some sched =>
                        if sched > now then
                          if sched - now > t.timeout then
                            let wf := wf.set_error (PyError.stepTimeoutError
                              ("Schedule timeout after " ++
                                toString t.timeout ++ " seconds"))
                            let wf :=
                              { wf with status := WorkflowStatus.failed }
                            finishS st task.workflow_id wf
                          else
                            pushSuccessorS st task wf t
                        else
                          pushSuccessorS st task wf t
                | TransitionTypeS.next =>
                    pushSuccessorS st task wf t
                | TransitionTypeS.base =>
                    pushSuccessorS st task wf t

end Spec

/-! ### Operation sequences over the task queue (for the FIFO claim) -/

/-- An externally issued task-queue operation. -/
inductive QOp where
  | push (t : Task)
  | pop
  deriving DecidableEq, Repr

/-- Run a sequence of queue operations, accumulating the tasks the pops
returned, in the order they were returned. -/
def runQueue : List QOp → MemoryTaskQueue → List Task →
    MemoryTaskQueue × List Task
  | [], q, acc => (q, acc)
  | QOp.push t :: ops, q, acc => runQueue ops (q.push t) acc
  | QOp.pop :: ops, q, acc =>
      match q.pop with
      | (Option.none, q2) => runQueue ops q2 acc
      | (Option.some t, q2) => runQueue ops q2 (acc ++ [t])

/-- The tasks a sequence of operations pushes, in push order. -/
def pushedTasks : List QOp → List Task
  | [] => []
  | QOp.push t :: ops => t :: pushedTasks ops
  | QOp.pop :: ops => pushedTasks ops

/-! ### Operation sequences over the storage (for the tier invariant) -/

/-- An externally issued storage operation (the read-only operations
`get_workflow`, `cleanup_cold_storage` — a no-op in the in-memory backend —
and `get_active_workflows` are included for completeness). -/
inductive StorageOp where
  | add (wf : Workflow StepTransition)
  | get (workflow_id : String)
  | move (workflow_id : String)
  | cleanup (before : ℚ)
  | getActive
  deriving DecidableEq, Repr

/-- Apply one storage operation to the storage state. -/
def applyStorageOp (op : StorageOp) (st : MemoryWorkflowStorage StepTransition) :
    MemoryWorkflowStorage StepTransition :=
  match op with
  | StorageOp.add wf => st.add_workflow wf
  | StorageOp.get _ => st
  | StorageOp.move workflow_id => st.move_to_cold_storage workflow_id
  | StorageOp.cleanup before => st.cleanup_cold_storage before
  | StorageOp.getActive => st

/-- Run a sequence of storage operations. -/
def runStorageOps : List StorageOp → MemoryWorkflowStorage StepTransition →
    MemoryWorkflowStorage StepTransition
  | [], st => st
  | op :: ops, st => runStorageOps ops (applyStorageOp op st)

/-- Freshness of one operation: `add_workflow` is only ever called by
`start_workflow` with a newly constructed instance whose id is a fresh
uuid4 string, so the added id is present in neither tier. -/
def freshOk (op : StorageOp) (st : MemoryWorkflowStorage StepTransition) :
    Bool :=
  match op with
  | StorageOp.add wf =>
      (dictGet st.warm wf.id).isNone && (dictGet st.cold wf.id).isNone
  | _ => true

/-- Freshness of a whole operation sequence, checked against the storage
state each operation actually sees. -/
def freshRun : List StorageOp → MemoryWorkflowStorage StepTransition → Bool
  | [], _ => true
  | op :: ops, st => freshOk op st && freshRun ops (applyStorageOp op st)

/-- The two tiers are disjoint: no id is a key of both warm and cold. -/
def TiersDisjoint (st : MemoryWorkflowStorage StepTransition) : Prop :=
  ∀ s : String, s ∈ dictKeys st.warm → s ∉ dictKeys st.cold

/-! ### Concrete fixtures used by the closed theorems and witnesses -/

/-- A freshly constructed workflow instance with the given id, status and
step methods (`Workflow.__init__` defaults otherwise). -/
def mkWorkflow (id : String) (status : WorkflowStatus)
    (steps : List (String × StepBehavior StepTransition)) :
    Workflow StepTransition :=
  { id := id, name := "Unnamed Workflow", status := status,
    result := PyValue.none, error := Option.none, created_at := 0,
    current_step_name := Option.none, steps := steps }

/-- Same, over spec-modelled transitions. -/
def mkWorkflowS (id : String) (status : WorkflowStatus)
    (steps : List (String × StepBehavior Spec.StepTransitionS)) :
    Workflow Spec.StepTransitionS :=
  { id := id, name := "Unnamed Workflow", status := status,
    result := PyValue.none, error := Option.none, created_at := 0,
    current_step_name := Option.none, steps := steps }

/-- A `NextStep(step_b)` transition object with the default timeout. -/
def nextTransition (ns : String) : StepTransition :=
  { transition_type := TransitionType.next, timeout := DEFAULT_STEP_TIMEOUT,
    next_step := Option.some ns, params := [],
    wait_seconds := Option.none, schedule_time := Option.none }

/-- A bare `StepTransition()` instance with the default timeout. -/
def bareTransition : StepTransition :=
  { transition_type := TransitionType.base, timeout := DEFAULT_STEP_TIMEOUT,
    next_step := Option.none, params := [],
    wait_seconds := Option.none, schedule_time := Option.none }

/-- Spec-modelled `End(result=42)` transition object. -/
def endTransition42 : Spec.StepTransitionS :=
  { transition_type := Spec.TransitionTypeS.endW,
    timeout := DEFAULT_STEP_TIMEOUT, next_step := Option.none, params := [],
    wait_seconds := Option.none, schedule_time := Option.none,
    result := PyValue.int 42 }

/-- A running workflow whose `start` step returns `End(42)` immediately
(spec scenario S1). -/
def wfEnd42 : Workflow Spec.StepTransitionS :=
  mkWorkflowS "w1" WorkflowStatus.running
    [("start", { duration := 0,
                 result := StepResult.transition endTransition42 })]

/-- Engine state holding `wfEnd42` in warm storage with its start task
queued. -/
def stEnd42 : EngineState Spec.StepTransitionS :=
  { storage := { warm := [("w1", wfEnd42)], cold := [] },
    task_queue :=
      { queue := [{ workflow_id := "w1", step_name := "start",
                    params := [] }] } }

/-- A workflow as `stop_workflow` leaves it: status `FAILED`, error
"Workflow cancelled", in cold storage — while a task for its `start` step
(which would return `NextStep`) is still queued. -/
def wfStopped : Workflow StepTransition :=
  { mkWorkflow "w" WorkflowStatus.failed
      [("start", { duration := 0,
                   result := StepResult.transition
                     (nextTransition "step_b") })] with
    error := Option.some (PyError.workflowError "Workflow cancelled") }

/-- Engine state right after an external `stop_workflow("w")`, with the
stopped workflow's queued task still pending. -/
def stStopped : EngineState StepTransition :=
  { storage := { warm := [], cold := [("w", wfStopped)] },
    task_queue :=
      { queue := [{ workflow_id := "w", step_name := "start",
                    params := [] }] } }

/-- A running workflow whose `start` step returns a bare base
`StepTransition()` instance. -/
def wfBare : Workflow StepTransition :=
  mkWorkflow "w" WorkflowStatus.running
    [("start", { duration := 0,
                 result := StepResult.transition bareTransition })]

/-- Engine state holding `wfBare` with its start task queued. -/
def stBare : EngineState StepTransition :=
  { storage := { warm := [("w", wfBare)], cold := [] },
    task_queue :=
      { queue := [{ workflow_id := "w", step_name := "start",
                    params := [] }] } }

/-- A running workflow whose `start` step body runs for 200 seconds
(spec scenario S5). -/
def wfSlow : Workflow StepTransition :=
  mkWorkflow "w" WorkflowStatus.running
    [("start", { duration := 200,
                 result := StepResult.transition
                   (nextTransition "step_b") })]

/-- Engine state holding `wfSlow` with its start task queued. -/
def stSlow : EngineState StepTransition :=
  { storage := { warm := [("w", wfSlow)], cold := [] },
    task_queue :=
      { queue := [{ workflow_id := "w", step_name := "start",
                    params := [] }] } }

/-- Engine state holding one running workflow "a" in warm storage. -/
def stRunA : EngineState StepTransition :=
  { storage := { warm := [("a", mkWorkflow "a" WorkflowStatus.running [])],
                 cold := [] },
    task_queue := { queue := [] } }

/-- Metadata of a workflow "greet" whose parameter `account_id` is required
(spec scenario S7). -/
def greetMetadata : WorkflowMetadata :=
  { name := "greet", class_path := "workflows/greet.py:GreetWorkflow",
    description := "", is_public := true,
    parameters := [("account_id",
      [("type", PyValue.str "str"),
       ("required", PyValue.bool true)])] }

/-- A registry with only the "greet" workflow registered. -/
def registryGreet : WorkflowRegistry :=
  { workflows := [("greet", greetMetadata)] }

/-- An engine state with empty storage and queue. -/
def stEmpty : EngineState StepTransition :=
  { storage := { warm := [], cold := [] }, task_queue := { queue := [] } }

/-- The fresh instance instantiating the "greet" class yields. -/
def freshGreet : Workflow StepTransition :=
  mkWorkflow "11111111-2222-3333-4444-555555555555" WorkflowStatus.pending []

/-! ## Helper lemmas about the dict model -/

theorem dictGet_dictSet_self {α : Type} (d : List (String × α)) (k : String)
    (v : α) : dictGet (dictSet d k v) k = Option.some v := by
  induction d with
  | nil => simp [dictSet, dictGet]
  | cons p d ih =>
      by_cases h : p.1 = k
      · simp [dictSet, h, dictGet]
      · simpa [dictSet, h, dictGet] using ih

theorem dictGet_dictSet_ne {α : Type} (d : List (String × α)) (k k' : String)
    (v : α) (h : k' ≠ k) : dictGet (dictSet d k v) k' = dictGet d k' := by
  induction d with
  | nil => simp [dictSet, dictGet, h, Ne.symm h]
  | cons p d ih =>
      by_cases hp : p.1 = k
      · simp [dictSet, hp, dictGet, h, Ne.symm h]
      · by_cases hp' : p.1 = k'
        · simp [dictSet, hp, dictGet, hp', h]
        · simpa [dictSet, hp, dictGet, hp'] using ih

theorem mem_dictKeys_dictSet {α : Type} (d : List (String × α))
    (k s : String) (v : α) :
    s ∈ dictKeys (dictSet d k v) ↔ s ∈ dictKeys d ∨ s = k := by
  induction d with
  | nil => simp [dictSet, dictKeys]
  | cons p d ih =>
      by_cases hp : p.1 = k
      · subst hp
        simp [dictSet, dictKeys]
        tauto
      · simp [dictSet, hp, dictKeys] at ih ⊢
        tauto

theorem dictGet_dictDel_self {α : Type} (d : List (String × α))
    (k : String) : dictGet (dictDel d k) k = Option.none := by
  induction d with
  | nil => simp [dictDel, dictGet]
  | cons p d ih =>
      by_cases hp : p.1 = k
      · simp [dictDel, hp, dictGet]
      · simp [dictDel, hp, dictGet]

theorem mem_dictKeys_dictDel {α : Type} (d : List (String × α))
    (k s : String) :
    s ∈ dictKeys (dictDel d k) ↔ s ∈ dictKeys d ∧ s ≠ k := by
  simp only [dictDel, dictKeys, List.mem_map, List.mem_filter]
  constructor
  · rintro ⟨p, ⟨hmem, hne⟩, rfl⟩
    exact ⟨⟨p, hmem, rfl⟩, by simpa using hne⟩
  · rintro ⟨⟨p, hmem, rfl⟩, hne⟩
    exact ⟨p, ⟨hmem, by simpa using hne⟩, rfl⟩

theorem dictGet_eq_none_iff {α : Type} (d : List (String × α)) (k : String) :
    dictGet d k = Option.none ↔ k ∉ dictKeys d := by
  induction d with
  | nil => simp [dictGet, dictKeys]
  | cons p d ih =>
      by_cases hp : p.1 = k
      · simp [dictGet, hp, dictKeys]
      · simp [dictGet, hp, dictKeys, Ne.symm hp] at ih ⊢
        exact ih

/-! ## The task queue is strict FIFO (claim C8) -/

/-- Invariant of any run of queue operations: the tasks returned by the
pops so far, followed by the tasks still queued, are exactly the initial
accumulator, the initial queue contents, and the pushed tasks in push
order.  Hence each pop returns the oldest pushed task not yet popped. -/
theorem runQueue_invariant (ops : List QOp) (q : MemoryTaskQueue)
    (acc : List Task) :
    (runQueue ops q acc).2 ++ (runQueue ops q acc).1.queue =
      acc ++ q.queue ++ pushedTasks ops := by
  induction ops generalizing q acc with
  | nil => simp [runQueue, pushedTasks]
  | cons op ops ih =>
      cases op with
      | push t =>
          simp [runQueue, pushedTasks, ih, MemoryTaskQueue.push]
      | pop =>
          cases hq : q.queue with
          | nil =>
              have hpop : q.pop = (Option.none, q) := by
                simp [MemoryTaskQueue.pop, hq]
              simp [runQueue, pushedTasks, hpop, ih, hq]
          | cons t rest =>
              have hpop : q.pop = (Option.some t, { queue := rest }) := by
                simp [MemoryTaskQueue.pop, hq]
              simp [runQueue, pushedTasks, hpop, ih, hq]

/-- C8: for every sequence of task-queue operations, `push` appends a task
and `pop` removes and returns the oldest pushed task not yet popped (strict
FIFO across all workflows), while `pop` on an empty queue returns nothing
and leaves the queue unchanged. -/
theorem c8_taskqueue_fifo :
    (∀ (q : MemoryTaskQueue) (t : Task),
      (q.push t).queue = q.queue ++ [t]) ∧
    (∀ (t : Task) (rest : List Task),
      MemoryTaskQueue.pop { queue := t :: rest } =
        (Option.some t, { queue := rest })) ∧
    (MemoryTaskQueue.pop { queue := [] } =
      (Option.none, ({ queue := [] } : MemoryTaskQueue))) ∧
    (∀ (ops : List QOp) (q : MemoryTaskQueue) (acc : List Task),
      (runQueue ops q acc).2 ++ (runQueue ops q acc).1.queue =
        acc ++ q.queue ++ pushedTasks ops) :=
  ⟨fun _ _ => rfl, fun _ _ => rfl, rfl, runQueue_invariant⟩

/-! ## `move_to_cold_storage` and the Timeout status (claim C3) -/

/-- C3: the claim says `move_to_cold_storage(id)` moves a warm workflow in
any of the terminal statuses Completed, Failed or Timeout to cold storage.
The code's `_terminal_states` set contains only `COMPLETED` and `FAILED`,
so a warm workflow with status `TIMEOUT` is left exactly where it is (the
call is a no-op), while Completed and Failed workflows do move.  This
theorem evaluates the storage code on all three statuses. -/
theorem c3_move_to_cold_timeout_noop :
    (MemoryWorkflowStorage.move_to_cold_storage
        { warm := [("a", mkWorkflow "a" WorkflowStatus.timeout [])],
          cold := [] } "a" =
      { warm := [("a", mkWorkflow "a" WorkflowStatus.timeout [])],
        cold := [] }) ∧
    (MemoryWorkflowStorage.move_to_cold_storage
        { warm := [("a", mkWorkflow "a" WorkflowStatus.completed [])],
          cold := [] } "a" =
      { warm := [],
        cold := [("a", mkWorkflow "a" WorkflowStatus.completed [])] }) ∧
    (MemoryWorkflowStorage.move_to_cold_storage
        { warm := [("a", mkWorkflow "a" WorkflowStatus.failed [])],
          cold := [] } "a" =
      { warm := [],
        cold := [("a", mkWorkflow "a" WorkflowStatus.failed [])] }) := by
  refine ⟨?_, ?_, ?_⟩ <;> decide

/-! ## Engine dispatch lemmas -/

/-- After the engine writes a mutated workflow object back and runs its
cold-storage check, `get_workflow` still finds exactly that object (it may
have moved from warm to cold, and `get_workflow` searches both). -/
theorem get_workflow_engineTerminalCheck {τ : Type}
    (storage : MemoryWorkflowStorage τ) (workflow_id : String)
    (wf : Workflow τ) (h : (storage.get_workflow workflow_id).isSome = true) :
    (engineTerminalCheck storage workflow_id wf).get_workflow workflow_id =
      Option.some wf := by
  by_cases hw : (dictGet storage.warm workflow_id).isSome
  · have hupd : storage.updateWorkflow workflow_id wf =
        { storage with warm := dictSet storage.warm workflow_id wf } := by
      simp [MemoryWorkflowStorage.updateWorkflow, hw]
    by_cases hterm : wf.status ∈ [WorkflowStatus.completed,
        WorkflowStatus.failed, WorkflowStatus.timeout]
    · by_cases hts : wf.status ∈ terminal_states
      · simp [engineTerminalCheck, hupd, hterm,
          MemoryWorkflowStorage.move_to_cold_storage,
          dictGet_dictSet_self, hts, MemoryWorkflowStorage.get_workflow,
          dictGet_dictDel_self]
      · simp [engineTerminalCheck, hupd, hterm,
          MemoryWorkflowStorage.move_to_cold_storage,
          dictGet_dictSet_self, hts, MemoryWorkflowStorage.get_workflow]
    · simp [engineTerminalCheck, hupd, hterm,
        MemoryWorkflowStorage.get_workflow, dictGet_dictSet_self]
  · have hc : (dictGet storage.cold workflow_id).isSome := by
      rcases hg : dictGet storage.warm workflow_id with _ | w
      · simpa [MemoryWorkflowStorage.get_workflow, hg, Option.orElse]
          using h
      · exact absurd (by simp [hg]) hw
    have hupd : storage.updateWorkflow workflow_id wf =
        { storage with cold := dictSet storage.cold workflow_id wf } := by
      simp [MemoryWorkflowStorage.updateWorkflow, hw, hc]
    have hwn : dictGet storage.warm workflow_id = Option.none := by
      rcases hg : dictGet storage.warm workflow_id with _ | w
      · rfl
      · exact absurd (by simp [hg]) hw
    by_cases hterm : wf.status ∈ [WorkflowStatus.completed,
        WorkflowStatus.failed, WorkflowStatus.timeout]
    · simp [engineTerminalCheck, hupd, hterm,
        MemoryWorkflowStorage.move_to_cold_storage, hwn,
        MemoryWorkflowStorage.get_workflow, dictGet_dictSet_self,
        Option.orElse]
    · simp [engineTerminalCheck, hupd, hterm,
        MemoryWorkflowStorage.get_workflow, hwn, dictGet_dictSet_self,
        Option.orElse]

/-! ## End transitions and cold storage (claim C1) -/

/-- C1: the claim says a workflow whose step returns `End(v)` ends with
status Completed, `get_result() = v`, its id in cold storage and absent
from warm storage.  `TransitionType.END` and the `End` class are absent
from src/lazerwfm/types.py, so the engine is evaluated here with the
spec-modelled `End`; even then, after draining the queue the workflow is
Completed with result 42 but its id is still in WARM storage and absent
from COLD storage, because the END branch's `continue`
(src/lazerwfm/workflow_engine.py line 114) skips the cold-storage check at
lines 160-166. -/
theorem c1_end_transition_skips_cold_storage :
    ((Spec.runEngineStepS 0 stEnd42).task_queue.queue = []) ∧
    (((Spec.runEngineStepS 0 stEnd42).storage.get_workflow "w1").map
        (fun w => w.status) = Option.some WorkflowStatus.completed) ∧
    (((Spec.runEngineStepS 0 stEnd42).storage.get_workflow "w1").map
        (fun w => w.get_result) = Option.some (PyValue.int 42)) ∧
    ((dictGet (Spec.runEngineStepS 0 stEnd42).storage.warm "w1").isSome =
      true) ∧
    (dictGet (Spec.runEngineStepS 0 stEnd42).storage.cold "w1" =
      Option.none) := by
  refine ⟨?_, ?_, ?_, ?_, ?_⟩ <;> decide

/-! ## Tasks for terminally-stopped workflows (claim C2) -/

/-- C2: the claim says a task popped for a workflow in a terminal status
(e.g. stopped externally) is dropped without invoking the named step.  The
dispatch loop (src/lazerwfm/workflow_engine.py lines 87-98) checks only
that the workflow exists — there is no status check — so the step IS
invoked: starting from the state `stop_workflow` leaves (status Failed,
error "Workflow cancelled", no step ever dispatched), one loop iteration
sets `current_step_name` to the task's step and the step's outcome
overwrites the cancellation error. -/
theorem c2_terminal_workflow_task_still_runs :
    ((stStopped.storage.get_workflow "w").map
        (fun w => w.current_step_name) = Option.some Option.none) ∧
    ((stStopped.storage.get_workflow "w").map (fun w => w.status) =
      Option.some WorkflowStatus.failed) ∧
    ((stStopped.storage.get_workflow "w").map (fun w => w.error) =
      Option.some (Option.some (PyError.workflowError
        "Workflow cancelled"))) ∧
    (((runEngineStep stStopped).storage.get_workflow "w").map
        (fun w => w.current_step_name) =
      Option.some (Option.some "start")) ∧
    (((runEngineStep stStopped).storage.get_workflow "w").map
        (fun w => w.error) =
      Option.some (Option.some (PyError.attributeError "TransitionType"
        "END"))) := by
  refine ⟨?_, ?_, ?_, ?_, ?_⟩ <;> decide

/-! ## Step timeouts (claim C4) -/

/-- C4: a step body that exceeds the fixed `DEFAULT_STEP_TIMEOUT` of 120
seconds takes the `except asyncio.TimeoutError` branch: the workflow's
final status is Timeout (the `set_error` call's intermediate `FAILED` is
overwritten on the next line) and the recorded error is a
`StepTimeoutError` naming the timed-out step. -/
theorem c4_step_timeout_sets_timeout_status
    (st : EngineState StepTransition) (task : Task) (qrest : List Task)
    (wf : Workflow StepTransition) (beh : StepBehavior StepTransition)
    (hq : st.task_queue.queue = task :: qrest)
    (hw : st.storage.get_workflow task.workflow_id = Option.some wf)
    (hs : dictGet wf.steps task.step_name = Option.some beh)
    (hd : beh.duration > DEFAULT_STEP_TIMEOUT) :
    ∃ wf2, (runEngineStep st).storage.get_workflow task.workflow_id =
        Option.some wf2 ∧
      wf2.status = WorkflowStatus.timeout ∧
      wf2.error = Option.some (PyError.stepTimeoutError
        ("Step " ++ task.step_name ++ " timed out")) := by
  have hpop : st.task_queue.pop = (Option.some task, { queue := qrest }) := by
    simp [MemoryTaskQueue.pop, hq]
  have hmain : (runEngineStep st).storage.get_workflow task.workflow_id =
      Option.some { (wf.set_current_step task.step_name).set_error
          (PyError.stepTimeoutError
            ("Step " ++ task.step_name ++ " timed out")) with
        status := WorkflowStatus.timeout } := by
    simp only [runEngineStep, hpop, hw, hs, if_pos hd]
    exact get_workflow_engineTerminalCheck _ _ _ (by simp [hw])
  exact ⟨_, hmain, rfl, by simp [Workflow.set_error,
    Workflow.set_current_step]⟩

/-- Witness for C4 at spec scenario S5: a 200-second `start` step. -/
theorem c4_witness :
    ∃ wf2, (runEngineStep stSlow).storage.get_workflow "w" =
        Option.some wf2 ∧
      wf2.status = WorkflowStatus.timeout ∧
      wf2.error = Option.some (PyError.stepTimeoutError
        ("Step " ++ "start" ++ " timed out")) :=
  c4_step_timeout_sets_timeout_status stSlow
    { workflow_id := "w", step_name := "start", params := [] } [] wfSlow
    { duration := 200,
      result := StepResult.transition (nextTransition "step_b") }
    rfl (by decide) (by decide) (by decide)

/-! ## Bare base transitions (claim C10) -/

/-- C10 counterexample: the claim says a bare base `StepTransition` passes
the is-a-transition check (true) and that the recorded failure comes from
reading the missing `next_step` attribute.  Evaluating the engine on
`stBare` shows the recorded failure is the `AttributeError` raised while
evaluating the match's first value pattern `TransitionType.END` (the enum
has no such member) — control never reaches the successor push that would
read `next_step` — and that error differs from a missing-`next_step`
attribute failure. -/
theorem c10_counterexample_error_is_end_lookup :
    (((runEngineStep stBare).storage.get_workflow "w").map
        (fun w => w.error) =
      Option.some (Option.some (PyError.attributeError "TransitionType"
        "END"))) ∧
    (Option.some (PyError.attributeError "TransitionType" "END") ≠
      Option.some (PyError.attributeError "StepTransition" "next_step")) ∧
    (((runEngineStep stBare).storage.get_workflow "w").map
        (fun w => w.status) = Option.some WorkflowStatus.failed) := by
  refine ⟨?_, ?_, ?_⟩ <;> decide

/-- C10 amended: a step that returns a bare base `StepTransition` instance
passes the engine's is-a-transition check, so the workflow is NOT marked
with the "Invalid step transition" error; the dispatch then raises an
attribute failure — the lookup of the nonexistent `TransitionType.END`
member while evaluating the match's first case pattern — which the generic
failure branch catches, and the workflow ends Failed with that attribute
failure recorded. -/
theorem c10_bare_transition_generic_failure
    (st : EngineState StepTransition) (task : Task) (qrest : List Task)
    (wf : Workflow StepTransition) (beh : StepBehavior StepTransition)
    (t : StepTransition)
    (hq : st.task_queue.queue = task :: qrest)
    (hw : st.storage.get_workflow task.workflow_id = Option.some wf)
    (hs : dictGet wf.steps task.step_name = Option.some beh)
    (hd : ¬beh.duration > DEFAULT_STEP_TIMEOUT)
    (ht : beh.result = StepResult.transition t)
    (_hbase : t.transition_type = TransitionType.base) :
    ∃ wf2, (runEngineStep st).storage.get_workflow task.workflow_id =
        Option.some wf2 ∧
      wf2.status = WorkflowStatus.failed ∧
      wf2.error = Option.some (PyError.attributeError "TransitionType"
        "END") ∧
      ∀ msg, wf2.error ≠ Option.some (PyError.workflowError msg) := by
  have hpop : st.task_queue.pop = (Option.some task, { queue := qrest }) := by
    simp [MemoryTaskQueue.pop, hq]
  have hmain : (runEngineStep st).storage.get_workflow task.workflow_id =
      Option.some { (wf.set_current_step task.step_name).set_error
          (PyError.attributeError "TransitionType" "END") with
        status := WorkflowStatus.failed } := by
    simp only [runEngineStep, hpop, hw, hs, if_neg hd, ht]
    exact get_workflow_engineTerminalCheck _ _ _ (by simp [hw])
  exact ⟨_, hmain, rfl,
    by simp [Workflow.set_error, Workflow.set_current_step],
    by simp [Workflow.set_error, Workflow.set_current_step]⟩

/-- Witness for the amended C10 at the concrete bare-transition state. -/
theorem c10_witness :
    ∃ wf2, (runEngineStep stBare).storage.get_workflow "w" =
        Option.some wf2 ∧
      wf2.status = WorkflowStatus.failed ∧
      wf2.error = Option.some (PyError.attributeError "TransitionType"
        "END") ∧
      ∀ msg, wf2.error ≠ Option.some (PyError.workflowError msg) :=
  c10_bare_transition_generic_failure stBare
    { workflow_id := "w", step_name := "start", params := [] } [] wfBare
    { duration := 0, result := StepResult.transition bareTransition }
    bareTransition rfl (by decide) (by decide) (by decide) (by decide) rfl

/-! ## Stopping workflows (claim C7) -/

/-- After stopping a running workflow, `get_workflow` finds the cancelled
object (wherever it now lives). -/
theorem get_workflow_after_stop_running {τ : Type}
    (st : EngineState τ) (workflow_id : String) (wf : Workflow τ)
    (hget : st.storage.get_workflow workflow_id = Option.some wf)
    (hrun : wf.status = WorkflowStatus.running) :
    (stop_workflow st workflow_id).storage.get_workflow workflow_id =
      Option.some (cancelledWorkflow wf) := by
  rcases hwg : dictGet st.storage.warm workflow_id with _ | w0
  · -- found in cold storage only
    have hcg : dictGet st.storage.cold workflow_id = Option.some wf := by
      simpa [MemoryWorkflowStorage.get_workflow, hwg, Option.orElse]
        using hget
    simp [stop_workflow, hget, hrun, MemoryWorkflowStorage.updateWorkflow,
      hwg, hcg, MemoryWorkflowStorage.move_to_cold_storage,
      MemoryWorkflowStorage.get_workflow, dictGet_dictSet_self,
      Option.orElse, Workflow.set_error, cancelledWorkflow]
  · -- found in warm storage
    have hww : w0 = wf := by
      simpa [MemoryWorkflowStorage.get_workflow, hwg, Option.orElse]
        using hget
    subst hww
    simp [stop_workflow, hget, hrun, MemoryWorkflowStorage.updateWorkflow,
      hwg, MemoryWorkflowStorage.move_to_cold_storage,
      MemoryWorkflowStorage.get_workflow, dictGet_dictSet_self,
      dictGet_dictDel_self, terminal_states, Option.orElse,
      Workflow.set_error, cancelledWorkflow]

/-- C7: `stop_workflow` (i) moves a warm running workflow to cold storage
with status Failed and the "Workflow cancelled" error, (ii) is a no-op when
the workflow does not exist or is not Running, and (iii) is idempotent:
applying it twice leaves exactly the state one application leaves. -/
theorem c7_stop_workflow_correct (st : EngineState StepTransition)
    (workflow_id : String) :
    (∀ wf, dictGet st.storage.warm workflow_id = Option.some wf →
      wf.status = WorkflowStatus.running →
      dictGet (stop_workflow st workflow_id).storage.cold workflow_id =
          Option.some (cancelledWorkflow wf) ∧
        dictGet (stop_workflow st workflow_id).storage.warm workflow_id =
          Option.none) ∧
    (st.storage.get_workflow workflow_id = Option.none →
      stop_workflow st workflow_id = st) ∧
    (∀ wf, st.storage.get_workflow workflow_id = Option.some wf →
      wf.status ≠ WorkflowStatus.running →
      stop_workflow st workflow_id = st) ∧
    (stop_workflow (stop_workflow st workflow_id) workflow_id =
      stop_workflow st workflow_id) := by
  refine ⟨?_, ?_, ?_, ?_⟩
  · intro wf hwg hrun
    have hget : st.storage.get_workflow workflow_id = Option.some wf := by
      simp [MemoryWorkflowStorage.get_workflow, hwg, Option.orElse]
    constructor
    · simp [stop_workflow, hget, hrun, MemoryWorkflowStorage.updateWorkflow,
        hwg, MemoryWorkflowStorage.move_to_cold_storage,
        dictGet_dictSet_self, terminal_states, Workflow.set_error,
        cancelledWorkflow]
    · simp [stop_workflow, hget, hrun, MemoryWorkflowStorage.updateWorkflow,
        hwg, MemoryWorkflowStorage.move_to_cold_storage,
        dictGet_dictSet_self, terminal_states, Workflow.set_error,
        dictGet_dictDel_self]
  · intro hget
    simp [stop_workflow, hget]
  · intro wf hget hrun
    simp [stop_workflow, hget, hrun]
  · rcases hget : st.storage.get_workflow workflow_id with _ | wf
    · have h1 : stop_workflow st workflow_id = st := by
        simp [stop_workflow, hget]
      rw [h1]
      exact h1
    · by_cases hrun : wf.status = WorkflowStatus.running
      · have h2 := get_workflow_after_stop_running st workflow_id wf hget
          hrun
        have h3 : (cancelledWorkflow wf).status ≠ WorkflowStatus.running :=
          by simp [cancelledWorkflow]
        generalize hs1 : stop_workflow st workflow_id = s1 at h2 ⊢
        simp [stop_workflow, h2, h3]
      · have h1 : stop_workflow st workflow_id = st := by
          simp [stop_workflow, hget, hrun]
        rw [h1]
        exact h1

/-- Witness for C7: one running workflow "a" in warm storage. -/
theorem c7_witness :
    (dictGet (stop_workflow stRunA "a").storage.cold "a" =
        Option.some (cancelledWorkflow
          (mkWorkflow "a" WorkflowStatus.running [])) ∧
      dictGet (stop_workflow stRunA "a").storage.warm "a" = Option.none) ∧
    stop_workflow (stop_workflow stRunA "a") "a" =
      stop_workflow stRunA "a" :=
  ⟨(c7_stop_workflow_correct stRunA "a").1
      (mkWorkflow "a" WorkflowStatus.running []) rfl rfl,
    (c7_stop_workflow_correct stRunA "a").2.2.2⟩

/-! ## Starting workflows by name (claim C5) -/

/-- C5: `start_workflow_by_name` fails with the unknown-workflow
`ValueError` when the name is not registered; fails with a
missing-parameter `ValueError` naming a required-and-absent parameter when
there is one; and otherwise adds the fresh instance to warm storage with
status Running, enqueues its `start` step with the given params, and
returns the new workflow's id. -/
theorem c5_start_workflow_by_name_correct (st : EngineState StepTransition)
    (registry : WorkflowRegistry) (workflow_name : String)
    (params : List (String × PyValue)) (fresh : Workflow StepTransition) :
    (registry.get_workflow_class workflow_name = Option.none →
      start_workflow_by_name st registry workflow_name params fresh =
        Except.error (PyError.valueError
          ("Workflow '" ++ workflow_name ++ "' not found"))) ∧
    (∀ metadata, registry.get_workflow_class workflow_name =
        Option.some metadata →
      ∀ pname, firstMissingRequired metadata params = Option.some pname →
        start_workflow_by_name st registry workflow_name params fresh =
            Except.error (PyError.valueError
              ("Required parameter '" ++ pname ++ "' missing")) ∧
          ∃ info, (pname, info) ∈ metadata.parameters ∧
            paramRequired info = true ∧
            dictGet params pname = Option.none) ∧
    (∀ metadata, registry.get_workflow_class workflow_name =
        Option.some metadata →
      firstMissingRequired metadata params = Option.none →
        (∀ pname info, (pname, info) ∈ metadata.parameters →
            paramRequired info = true →
            (dictGet params pname).isSome = true) ∧
          start_workflow_by_name st registry workflow_name params fresh =
            Except.ok (start_workflow st fresh params) ∧
          (start_workflow st fresh params).1 = fresh.id ∧
          (start_workflow st fresh params).2.task_queue.queue =
            st.task_queue.queue ++
              [{ workflow_id := fresh.id, step_name := "start",
                 params := params }] ∧
          dictGet (start_workflow st fresh params).2.storage.warm fresh.id =
            Option.some { fresh with status := WorkflowStatus.running }) := by
  refine ⟨?_, ?_, ?_⟩
  · intro h
    simp [start_workflow_by_name, h]
  · intro metadata hmeta pname hmiss
    constructor
    · simp [start_workflow_by_name, hmeta, hmiss]
    · obtain ⟨p, hp, rfl⟩ :
          ∃ p, metadata.parameters.find? (fun p =>
              paramRequired p.2 && (dictGet params p.1).isNone) =
            Option.some p ∧ p.1 = pname := by
        simpa [firstMissingRequired] using hmiss
      have hmem := List.mem_of_find?_eq_some hp
      have hpred := List.find?_some hp
      simp only [Bool.and_eq_true, Option.isNone_iff_eq_none] at hpred
      exact ⟨p.2, by simpa using hmem, hpred.1, hpred.2⟩
  · intro metadata hmeta hnone
    have hfind : metadata.parameters.find? (fun p =>
        paramRequired p.2 && (dictGet params p.1).isNone) = Option.none := by
      rcases hf : metadata.parameters.find? (fun p =>
          paramRequired p.2 && (dictGet params p.1).isNone) with _ | p
      · exact hf
      · exfalso
        have hsome : firstMissingRequired metadata params =
            Option.some p.1 := by simp [firstMissingRequired, hf]
        rw [hnone] at hsome
        exact Option.noConfusion hsome
    refine ⟨?_, ?_, rfl, ?_, ?_⟩
    · intro pname info hmem hreq
      have hno := List.find?_eq_none.mp hfind (pname, info) hmem
      simp only [Bool.and_eq_true, not_and] at hno
      rcases ho : dictGet params pname with _ | v
      · exact absurd (show (dictGet params pname).isNone = true by
          simp [ho]) (hno hreq)
      · simp
    · simp [start_workflow_by_name, hmeta, firstMissingRequired, hfind]
    · simp [start_workflow, MemoryTaskQueue.push]
    · simp [start_workflow, MemoryWorkflowStorage.add_workflow,
        MemoryWorkflowStorage.updateWorkflow, dictGet_dictSet_self]

/-- Witness for C5 at spec scenario S7: the "greet" registry with required
parameter `account_id`. -/
theorem c5_witness :
    (start_workflow_by_name stEmpty registryGreet "nope" [] freshGreet =
      Except.error (PyError.valueError
        ("Workflow '" ++ "nope" ++ "' not found"))) ∧
    (start_workflow_by_name stEmpty registryGreet "greet" [] freshGreet =
      Except.error (PyError.valueError
        ("Required parameter '" ++ "account_id" ++ "' missing"))) ∧
    (start_workflow_by_name stEmpty registryGreet "greet"
        [("account_id", PyValue.str "a")] freshGreet =
      Except.ok (start_workflow stEmpty freshGreet
        [("account_id", PyValue.str "a")])) :=
  ⟨(c5_start_workflow_by_name_correct stEmpty registryGreet "nope" []
      freshGreet).1 (by decide),
   ((c5_start_workflow_by_name_correct stEmpty registryGreet "greet" []
      freshGreet).2.1 greetMetadata (by decide) "account_id"
      (by decide)).1,
   ((c5_start_workflow_by_name_correct stEmpty registryGreet "greet"
      [("account_id", PyValue.str "a")] freshGreet).2.2 greetMetadata
      (by decide) (by decide)).2.1⟩

/-! ## Transition construction and timeouts (claim C6) -/

/-- C6: constructing any of the four transitions (the spec-modelled `End`,
and the source's `NextStep`, `WaitAndNextStep`, `Schedule`) with a timeout
strictly greater than `MAX_STEP_TIMEOUT` (600) fails with the configuration
`ValueError`; with the timeout unset the constructed transition carries the
120-second default; and construction succeeds for every timeout value not
exceeding 600. -/
theorem c6_transition_timeout_validation (v : PyValue) (ns : String)
    (ws sched : ℚ) (params : List (String × PyValue)) (t u : ℚ)
    (ht : t > MAX_STEP_TIMEOUT) (hu : u ≤ MAX_STEP_TIMEOUT) :
    (Spec.End.make v (Option.some t) = Except.error (PyError.valueError
        "Step timeout cannot exceed 600 seconds") ∧
      NextStep.make ns (Option.some t) params = Except.error
        (PyError.valueError "Step timeout cannot exceed 600 seconds") ∧
      WaitAndNextStep.make ws ns (Option.some t) params = Except.error
        (PyError.valueError "Step timeout cannot exceed 600 seconds") ∧
      Schedule.make sched ns (Option.some t) params = Except.error
        (PyError.valueError "Step timeout cannot exceed 600 seconds")) ∧
    ((Spec.End.make v Option.none).map (fun tr => tr.timeout) =
        Except.ok DEFAULT_STEP_TIMEOUT ∧
      (NextStep.make ns Option.none params).map (fun tr => tr.timeout) =
        Except.ok DEFAULT_STEP_TIMEOUT ∧
      (WaitAndNextStep.make ws ns Option.none params).map
          (fun tr => tr.timeout) = Except.ok DEFAULT_STEP_TIMEOUT ∧
      (Schedule.make sched ns Option.none params).map
          (fun tr => tr.timeout) = Except.ok DEFAULT_STEP_TIMEOUT) ∧
    ((∃ tr, Spec.End.make v (Option.some u) = Except.ok tr) ∧
      (∃ tr, NextStep.make ns (Option.some u) params = Except.ok tr) ∧
      (∃ tr, WaitAndNextStep.make ws ns (Option.some u) params =
        Except.ok tr) ∧
      (∃ tr, Schedule.make sched ns (Option.some u) params =
        Except.ok tr)) := by
  have h1 : StepTransition.initTimeout (Option.some t) =
      Except.error (PyError.valueError
        "Step timeout cannot exceed 600 seconds") := by
    simp [StepTransition.initTimeout, ht]
  have h2 : StepTransition.initTimeout Option.none =
      Except.ok DEFAULT_STEP_TIMEOUT := rfl
  have h3 : ∃ r, StepTransition.initTimeout (Option.some u) =
      Except.ok r := by
    by_cases h0 : u = 0
    · exact ⟨DEFAULT_STEP_TIMEOUT,
        by norm_num [StepTransition.initTimeout, h0, MAX_STEP_TIMEOUT]⟩
    · exact ⟨u, by simp [StepTransition.initTimeout, not_lt.mpr hu, h0]⟩
  obtain ⟨r, hr⟩ := h3
  refine ⟨⟨?_, ?_, ?_, ?_⟩, ⟨?_, ?_, ?_, ?_⟩, ⟨?_, ?_, ?_, ?_⟩⟩ <;>
    simp [Spec.End.make, NextStep.make, WaitAndNextStep.make, Schedule.make,
      h1, h2, hr, Except.map]

/-- Witness for C6 at timeout 601 (rejected), unset (default 120) and 300
(accepted). -/
theorem c6_witness :
    (NextStep.make "step_b" (Option.some 601) [] = Except.error
      (PyError.valueError "Step timeout cannot exceed 600 seconds")) ∧
    ((NextStep.make "step_b" Option.none []).map (fun tr => tr.timeout) =
      Except.ok DEFAULT_STEP_TIMEOUT) ∧
    (∃ tr, NextStep.make "step_b" (Option.some 300) [] = Except.ok tr) := by
  have h := c6_transition_timeout_validation (PyValue.int 7) "step_b" 1 0
    [] 601 300 (by norm_num [MAX_STEP_TIMEOUT])
    (by norm_num [MAX_STEP_TIMEOUT])
  exact ⟨h.1.2.1, h.2.1.2.1, h.2.2.2.1⟩

/-! ## Storage tier invariants (claim C9) -/

theorem runStorageOps_append (l1 l2 : List StorageOp)
    (st : MemoryWorkflowStorage StepTransition) :
    runStorageOps (l1 ++ l2) st = runStorageOps l2 (runStorageOps l1 st) := by
  induction l1 generalizing st with
  | nil => simp [runStorageOps]
  | cons op l1 ih => simp [runStorageOps, ih]

theorem freshRun_append (l1 l2 : List StorageOp)
    (st : MemoryWorkflowStorage StepTransition)
    (h : freshRun (l1 ++ l2) st = true) :
    freshRun l1 st = true ∧
      freshRun l2 (runStorageOps l1 st) = true := by
  induction l1 generalizing st with
  | nil => simpa [freshRun, runStorageOps] using h
  | cons op l1 ih =>
      simp only [List.cons_append, freshRun, Bool.and_eq_true] at h
      obtain ⟨h1, h2⟩ := h
      obtain ⟨h3, h4⟩ := ih (applyStorageOp op st) h2
      exact ⟨by simp [freshRun, Bool.and_eq_true, h1, h3],
        by simpa [runStorageOps] using h4⟩

/-- One fresh storage operation preserves tier disjointness. -/
theorem tiersDisjoint_applyStorageOp (op : StorageOp)
    (st : MemoryWorkflowStorage StepTransition) (hd : TiersDisjoint st)
    (hf : freshOk op st = true) :
    TiersDisjoint (applyStorageOp op st) := by
  cases op with
  | add wf =>
      simp only [freshOk, Bool.and_eq_true, Option.isNone_iff_eq_none]
        at hf
      obtain ⟨hw, hc⟩ := hf
      intro s hs hsc
      simp only [applyStorageOp, MemoryWorkflowStorage.add_workflow]
        at hs hsc
      rcases (mem_dictKeys_dictSet _ _ _ _).mp hs with h | rfl
      · exact hd s h hsc
      · exact (dictGet_eq_none_iff _ _).mp hc hsc
  | get workflow_id => exact hd
  | move workflow_id =>
      intro s hs hsc
      rcases hg : dictGet st.warm workflow_id with _ | wfm
      · simp only [applyStorageOp,
          MemoryWorkflowStorage.move_to_cold_storage, hg] at hs hsc
        exact hd s hs hsc
      · by_cases hterm : wfm.status ∈ terminal_states
        · simp only [applyStorageOp,
            MemoryWorkflowStorage.move_to_cold_storage, hg,
            if_pos hterm] at hs hsc
          obtain ⟨hs1, hs2⟩ := (mem_dictKeys_dictDel _ _ _).mp hs
          rcases (mem_dictKeys_dictSet _ _ _ _).mp hsc with h | rfl
          · exact hd s hs1 h
          · exact hs2 rfl
        · simp only [applyStorageOp,
            MemoryWorkflowStorage.move_to_cold_storage, hg,
            if_neg hterm] at hs hsc
          exact hd s hs hsc
  | cleanup before => exact hd
  | getActive => exact hd

/-- No storage operation ever removes an id from the cold tier. -/
theorem coldKeys_mono_applyStorageOp (op : StorageOp)
    (st : MemoryWorkflowStorage StepTransition) (s : String)
    (h : s ∈ dictKeys st.cold) :
    s ∈ dictKeys (applyStorageOp op st).cold := by
  cases op with
  | add wf => exact h
  | get workflow_id => exact h
  | move workflow_id =>
      rcases hg : dictGet st.warm workflow_id with _ | wfm
      · simpa [applyStorageOp, MemoryWorkflowStorage.move_to_cold_storage,
          hg] using h
      · by_cases hterm : wfm.status ∈ terminal_states
        · simp only [applyStorageOp,
            MemoryWorkflowStorage.move_to_cold_storage, hg, if_pos hterm]
          exact (mem_dictKeys_dictSet _ _ _ _).mpr (Or.inl h)
        · simpa [applyStorageOp,
            MemoryWorkflowStorage.move_to_cold_storage, hg,
            if_neg hterm] using h
  | cleanup before => exact h
  | getActive => exact h

/-- Disjointness is preserved along any fresh run. -/
theorem tiersDisjoint_runStorageOps (ops : List StorageOp)
    (st : MemoryWorkflowStorage StepTransition) (hd : TiersDisjoint st)
    (hf : freshRun ops st = true) :
    TiersDisjoint (runStorageOps ops st) := by
  induction ops generalizing st with
  | nil => exact hd
  | cons op ops ih =>
      simp only [freshRun, Bool.and_eq_true] at hf
      exact ih (applyStorageOp op st)
        (tiersDisjoint_applyStorageOp op st hd hf.1) hf.2

/-- Cold membership is preserved along any run. -/
theorem coldKeys_mono_runStorageOps (ops : List StorageOp)
    (st : MemoryWorkflowStorage StepTransition) (s : String)
    (h : s ∈ dictKeys st.cold) :
    s ∈ dictKeys (runStorageOps ops st).cold := by
  induction ops generalizing st with
  | nil => exact h
  | cons op ops ih =>
      exact ih (applyStorageOp op st)
        (coldKeys_mono_applyStorageOp op st s h)

/-- C9: over every sequence of storage operations whose `add_workflow`
calls carry fresh ids (as uuid4 generation guarantees), starting from a
disjoint storage: (i) after every prefix of the run the warm and cold tiers
are disjoint — every id is in at most one tier at every externally
observable point; and (ii) an id that is in cold storage after some prefix
is still in cold storage and not in warm storage after every longer prefix:
tier transitions are monotonic, warm → cold only, never back. -/
theorem c9_storage_tiers_disjoint_monotone (ops : List StorageOp)
    (st : MemoryWorkflowStorage StepTransition) (hd : TiersDisjoint st)
    (hf : freshRun ops st = true) :
    (∀ pre post, ops = pre ++ post →
      TiersDisjoint (runStorageOps pre st)) ∧
    (∀ pre mid post, ops = pre ++ mid ++ post →
      ∀ s, s ∈ dictKeys (runStorageOps pre st).cold →
        s ∈ dictKeys (runStorageOps (pre ++ mid) st).cold ∧
          s ∉ dictKeys (runStorageOps (pre ++ mid) st).warm) := by
  constructor
  · rintro pre post rfl
    exact tiersDisjoint_runStorageOps pre st hd
      (freshRun_append pre post st hf).1
  · rintro pre mid post rfl s hs
    have hcold : s ∈ dictKeys (runStorageOps (pre ++ mid) st).cold := by
      rw [runStorageOps_append pre mid]
      exact coldKeys_mono_runStorageOps mid _ s hs
    have hdisj : TiersDisjoint (runStorageOps (pre ++ mid) st) :=
      tiersDisjoint_runStorageOps (pre ++ mid) st hd
        (freshRun_append (pre ++ mid) post st hf).1
    exact ⟨hcold, fun hwarm => hdisj s hwarm hcold⟩

/-- Witness for C9: add a completed workflow, move it to cold, read the
active set. -/
theorem c9_witness :
    TiersDisjoint (runStorageOps
      [StorageOp.add (mkWorkflow "a" WorkflowStatus.completed []),
       StorageOp.move "a", StorageOp.getActive]
      { warm := [], cold := [] }) :=
  (c9_storage_tiers_disjoint_monotone
      [StorageOp.add (mkWorkflow "a" WorkflowStatus.completed []),
       StorageOp.move "a", StorageOp.getActive]
      { warm := [], cold := [] }
      (fun s hs => by simp [dictKeys] at hs)
      (by decide)).1
    [StorageOp.add (mkWorkflow "a" WorkflowStatus.completed []),
     StorageOp.move "a", StorageOp.getActive] [] (by simp)

end LazerWFM
